import Mathlib

/-!
# RecordVideo (recordvideo.c): the control loop of the camera sample

A shallow embedding of `recordvideo.c`.  The program is a single-threaded loop
over a handful of file-scope variables; every function of the source becomes a
function from the record of those variables (`Globals`) to the updated record
together with the list of platform calls it issued, in program order.

The platform (camera service, sound player, screen, BPS event queue) is not
part of the sources.  What it answers is an input of the model: every call
whose result the program looks at takes that result from an argument, and the
call is written to the trace together with the values it returned.
Read-only accessors of an event that has been delivered
(`screen_event_get_event`, `screen_get_event_property_iv/pv`,
`bps_event_get_domain`, `bps_event_get_code`, `navigator_get_domain`,
`screen_get_domain`) are modelled by matching on the event value and are not
written to the trace.
-/

namespace RecordVideo

/-! ## Platform types and constants -/

/-- The enum `state_t` of the source. -/
inductive state_t where
  | STATE_STARTUP
  | STATE_VIEWFINDER
  | STATE_RECORDING
  deriving DecidableEq, Repr

/-- The C type `camera_error_t`, an integer error code. -/
abbrev camera_error_t := Int

/-- The C type `camera_handle_t`. -/
abbrev camera_handle_t := Int

/-- Modelled from the spec: the platform header errno.h is not among the
sources; `EOK` is the zero code, the value `init_camera` returns on success
(`return 0`) and `main` tests for. -/
def EOK : Int := 0

/-- Modelled from the spec: the platform header camera_api.h is not among the
sources; the camera API's success code is `EOK`. -/
def CAMERA_EOK : camera_error_t := EOK

/-- Modelled from the spec: the "invalid value sentinel used before open /
after close" of camera_api.h, which is not among the sources. -/
def CAMERA_HANDLE_INVALID : camera_handle_t := -1

/-- The camera units of camera_api.h that the source names, and any other. -/
inductive camera_unit_t where
  | CAMERA_UNIT_NONE
  | CAMERA_UNIT_REAR
  | CAMERA_UNIT_FRONT
  | other (n : Nat)
  deriving DecidableEq, Repr

/-- The window properties the source sets with `screen_set_window_property_iv`. -/
inductive screen_property where
  | SCREEN_PROPERTY_MIRROR
  | SCREEN_PROPERTY_ZORDER
  | SCREEN_PROPERTY_VISIBLE
  | SCREEN_PROPERTY_USAGE
  deriving DecidableEq, Repr

/-- Which window a screen call is applied to: the application's background
window `screen_win` or the viewfinder window `vf_win` (a window id). -/
inductive window_ref where
  | screen_win
  | vf (w : Nat)
  deriving DecidableEq, Repr

/-- One platform call issued by the program, with the arguments the program
passes and, where the program reads them, the values the call returned. -/
inductive Call where
  /-- The call `camera_roll_open_video(handle, &video_fd, filename, ...)`: it
  returned `err`, and left `fd` in `video_fd` and `filename` in the buffer. -/
  | camera_roll_open_video (h : camera_handle_t) (err : camera_error_t) (fd : Int)
      (filename : String)
  | soundplayer_play_sound (name : String)
  /-- The call `camera_start_video(handle, filename, NULL, NULL, filename)`,
  which returned `err`. -/
  | camera_start_video (h : camera_handle_t) (filename : String) (err : camera_error_t)
  | camera_stop_video (h : camera_handle_t)
  | close (fd : Int)
  | unlink (filename : String)
  /-- The call `fprintf(stderr, fmt, ...)`; the values printed are not recorded. -/
  | fprintf_stderr (fmt : String)
  | perror (msg : String)
  | screen_set_window_property_iv (w : window_ref) (p : screen_property) (v : Int)
  | screen_flush_context
  /-- The call `bps_get_event(&event, -1)`, the blocking wait of `handle_event`. -/
  | bps_get_event
  /-- One `camera_find_capable` call; `found` is the unit it reported, or
  `none` when it did not return `CAMERA_EOK`. -/
  | camera_find_capable (found : Option camera_unit_t)
  | camera_open (unit : camera_unit_t) (err : camera_error_t) (h : camera_handle_t)
  | camera_set_videovf_property (h : camera_handle_t) (err : camera_error_t)
  | camera_start_video_viewfinder (h : camera_handle_t) (err : camera_error_t)
  | camera_stop_video_viewfinder (h : camera_handle_t)
  | camera_close (h : camera_handle_t)
  | screen_create_context
  | screen_create_window
  | screen_create_window_group (group : String)
  | screen_create_window_buffers (count : Int)
  | screen_get_window_property_pv
  | screen_get_window_property_iv
  | screen_fill
  | screen_post_window
  /-- The call `bps_initialize()`. -/
  | bps_init
  | screen_request_events
  | navigator_request_events
  | screen_stop_events
  | bps_shutdown
  | screen_destroy_window
  | screen_destroy_context
  deriving DecidableEq, Repr

/-! ## Program state -/

/-- The file-scope variables of the source (`screen_ctx`, an opaque handle the
program never inspects, is left out). -/
structure Globals where
  shutdown : Bool
  /-- The variable `vf_win`; `none` is `NULL`. -/
  vf_win : Option Nat
  state : state_t
  handle : camera_handle_t
  shouldmirror : Bool
  touch : Bool
  video_fd : Int
  deriving DecidableEq, Repr

/-- The initial values of the file-scope variables. -/
def Globals.init : Globals :=
  { shutdown := false
    vf_win := none
    state := state_t.STATE_STARTUP
    handle := CAMERA_HANDLE_INVALID
    shouldmirror := false
    touch := false
    video_fd := -1 }

/-! ## Events -/

/-- The screen event types the source switches on, and any other. -/
inductive screen_event_type where
  | SCREEN_EVENT_MTOUCH_TOUCH
  | SCREEN_EVENT_MTOUCH_MOVE
  | SCREEN_EVENT_MTOUCH_RELEASE
  | SCREEN_EVENT_CREATE
  | other (n : Nat)
  deriving DecidableEq, Repr

/-- The navigator event codes the source switches on, and any other. -/
inductive navigator_code where
  | NAVIGATOR_SWIPE_DOWN
  | NAVIGATOR_EXIT
  | other (n : Nat)
  deriving DecidableEq, Repr

/-- A delivered `bps_event_t`, by domain.  A screen event carries its
`SCREEN_PROPERTY_TYPE` and what `screen_get_event_property_pv(...,
SCREEN_PROPERTY_WINDOW, ...)` answers for it: `some w` stores window `w`,
`none` is the return value `-1`. -/
inductive bps_event where
  | navigator (code : navigator_code)
  | screen (type : screen_event_type) (window : Option Nat)
  | other_domain
  deriving DecidableEq, Repr

/-- What one `bps_get_event(&event, -1)` call answers: a return code other
than `BPS_SUCCESS`, or success with an event or with `event == NULL`. -/
inductive bps_get_result where
  | failure
  | success (event : Option bps_event)
  deriving DecidableEq, Repr

/-- What the camera service answers to the two calls of one
`run_state_machine` step that starts a recording. -/
structure video_answers where
  /-- Return value of `camera_roll_open_video`. -/
  roll_err : camera_error_t
  /-- Value the call leaves in `video_fd`. -/
  roll_fd : Int
  /-- Value the call leaves in the `filename` buffer. -/
  roll_filename : String
  /-- Return value of `camera_start_video`. -/
  start_err : camera_error_t
  deriving DecidableEq, Repr

/-! ## The functions of the source -/

/-- The function `handle_screen_event`, applied to an event of the given type.
When the window of a `SCREEN_EVENT_CREATE` event cannot be retrieved, `vf_win`
keeps its value. -/
def handle_screen_event (g : Globals) (type : screen_event_type) (window : Option Nat) :
    Globals × List Call :=
  match type with
  | .SCREEN_EVENT_MTOUCH_TOUCH =>
      ({ g with touch := true }, [Call.fprintf_stderr "Touch event\n"])
  | .SCREEN_EVENT_MTOUCH_MOVE => (g, [Call.fprintf_stderr "Move event\n"])
  | .SCREEN_EVENT_MTOUCH_RELEASE => (g, [Call.fprintf_stderr "Release event\n"])
  | .SCREEN_EVENT_CREATE =>
      match window with
      | none => (g, [Call.perror "screen_get_event_property_pv(SCREEN_PROPERTY_WINDOW)"])
      | some w =>
          ({ g with vf_win := some w, touch := false, state := state_t.STATE_VIEWFINDER },
           [Call.fprintf_stderr "viewfinder window found!\n",
            Call.screen_set_window_property_iv (.vf w) .SCREEN_PROPERTY_MIRROR
              (if g.shouldmirror then 1 else 0),
            Call.screen_set_window_property_iv (.vf w) .SCREEN_PROPERTY_ZORDER 1,
            Call.screen_set_window_property_iv (.vf w) .SCREEN_PROPERTY_VISIBLE 1,
            Call.screen_flush_context])
  | .other _ => (g, [])

/-- The function `handle_navigator_event`. -/
def handle_navigator_event (g : Globals) (code : navigator_code) : Globals × List Call :=
  match code with
  | .NAVIGATOR_SWIPE_DOWN => (g, [Call.fprintf_stderr "Swipe down event\n"])
  | .NAVIGATOR_EXIT => ({ g with shutdown := true }, [Call.fprintf_stderr "Exit event\n"])
  | .other _ => (g, [])

/-- The function `handle_event`; `r` is what `bps_get_event` answers.  The
result is `none` when `assert(rc == BPS_SUCCESS)` fails and the program
aborts. -/
def handle_event (g : Globals) (r : bps_get_result) : Option (Globals × List Call) :=
  match r with
  | .failure => none
  | .success none => some (g, [Call.bps_get_event])
  | .success (some (.navigator code)) =>
      let (g1, t) := handle_navigator_event g code
      some (g1, Call.bps_get_event :: t)
  | .success (some (.screen type window)) =>
      let (g1, t) := handle_screen_event g type window
      some (g1, Call.bps_get_event :: t)
  | .success (some .other_domain) => some (g, [Call.bps_get_event])

/-- The function `run_state_machine`; `a` is what the camera service answers
if the step calls it. -/
def run_state_machine (g : Globals) (a : video_answers) : Globals × List Call :=
  match g.state with
  | .STATE_STARTUP => (g, [])
  | .STATE_VIEWFINDER =>
      if g.touch then
        let g1 := { g with touch := false, video_fd := a.roll_fd }
        let t1 := [Call.camera_roll_open_video g.handle a.roll_err a.roll_fd a.roll_filename]
        if a.roll_err ≠ CAMERA_EOK then
          (g1, t1 ++ [Call.fprintf_stderr "camera_roll_open_video() failed: %d"])
        else
          let t2 := t1 ++ [Call.soundplayer_play_sound "event_recording_start",
                           Call.camera_start_video g.handle a.roll_filename a.start_err]
          if a.start_err ≠ CAMERA_EOK then
            (g1, t2 ++ [Call.fprintf_stderr "camera_start_video() failed: %d",
                        Call.close g1.video_fd,
                        Call.unlink a.roll_filename,
                        Call.soundplayer_play_sound "event_recording_stop"])
          else
            ({ g1 with state := state_t.STATE_RECORDING }, t2)
      else (g, [])
  | .STATE_RECORDING =>
      if g.touch then
        ({ g with touch := false, state := state_t.STATE_VIEWFINDER },
         [Call.camera_stop_video g.handle,
          Call.close g.video_fd,
          Call.soundplayer_play_sound "event_recording_stop"])
      else (g, [])

/-- What the camera service answers during `init_camera`. -/
structure init_answers where
  /-- The units the successive `camera_find_capable` calls report before the
  call that does not return `CAMERA_EOK`. -/
  capable : List camera_unit_t
  /-- The content of `cams[0]` when no call stored a unit there (the array is
  not initialised by the source). -/
  cams0 : camera_unit_t
  /-- Return value of `camera_open`. -/
  open_err : camera_error_t
  /-- Value `camera_open` leaves in `handle`. -/
  open_handle : camera_handle_t
  /-- Return value of `camera_set_videovf_property`. -/
  setprop_err : camera_error_t
  /-- Return value of `camera_start_video_viewfinder`. -/
  startvf_err : camera_error_t
  deriving DecidableEq, Repr

/-- The calls of the `camera_find_capable` loop of `init_camera` (METHOD 2, the
branch that is compiled): one successful call and one `fprintf` per capable
unit, then the call that ends the loop. -/
def find_capable_trace : List camera_unit_t → List Call
  | [] => [Call.camera_find_capable none]
  | u :: rest =>
      Call.camera_find_capable (some u)
        :: Call.fprintf_stderr "camera unit %d supports the required features\n"
        :: find_capable_trace rest

/-- The function `init_camera`: the updated variables, the returned value and
the calls issued. -/
def init_camera (g : Globals) (a : init_answers) : Globals × Int × List Call :=
  let unit := a.capable.headD a.cams0
  let t0 := find_capable_trace a.capable
    ++ [Call.fprintf_stderr "selecting camera unit %d\n",
        Call.camera_open unit a.open_err a.open_handle]
  let g1 := { g with handle := a.open_handle }
  if a.open_err ≠ CAMERA_EOK then
    (g1, a.open_err, t0 ++ [Call.fprintf_stderr "camera_open() failed: %d\n"])
  else
    let t1 := t0 ++ [Call.camera_set_videovf_property g1.handle a.setprop_err]
    if a.setprop_err ≠ CAMERA_EOK then
      ({ g1 with handle := CAMERA_HANDLE_INVALID }, a.setprop_err,
       t1 ++ [Call.fprintf_stderr "camera_set_videovf_property() failed: %d\n",
              Call.camera_close g1.handle])
    else
      let t2 := t1 ++ [Call.camera_start_video_viewfinder g1.handle a.startvf_err]
      if a.startvf_err ≠ CAMERA_EOK then
        ({ g1 with handle := CAMERA_HANDLE_INVALID }, a.startvf_err,
         t2 ++ [Call.fprintf_stderr "camera_start_video_viewfinder() failed: %d\n",
                Call.camera_close g1.handle])
      else
        (if unit = camera_unit_t.CAMERA_UNIT_FRONT then { g1 with shouldmirror := true } else g1,
         0, t2)

/-- What the platform answers during one iteration of the loop of `main`: the
camera answers for `run_state_machine` and what `bps_get_event` delivers to
`handle_event`. -/
structure loop_input where
  video : video_answers
  got : bps_get_result
  deriving DecidableEq, Repr

/-- How the loop of `main` ends: `shutdown` was found set (`exited`, with the
variables at that point), the assertion of `handle_event` failed (`aborted`),
or the described inputs ran out while the loop was still running (`waiting`).
Each carries the calls issued by the loop. -/
inductive loop_result where
  | exited (g : Globals) (trace : List Call)
  | aborted (trace : List Call)
  | waiting (trace : List Call)
  deriving DecidableEq, Repr

/-- Put the calls `t` in front of the calls of a loop result. -/
def loop_result.after (t : List Call) : loop_result → loop_result
  | .exited g t1 => .exited g (t ++ t1)
  | .aborted t1 => .aborted (t ++ t1)
  | .waiting t1 => .waiting (t ++ t1)

/-- The body of the loop of `main`: `run_state_machine(); handle_event();`.
The result is `none` when the assertion of `handle_event` fails. -/
def loop_body (g : Globals) (i : loop_input) : Option (Globals × List Call) :=
  let r := run_state_machine g i.video
  match handle_event r.1 i.got with
  | none => none
  | some (g2, t2) => some (g2, r.2 ++ t2)

/-- The loop of `main`: `while (!shutdown) { run_state_machine(); handle_event(); }`,
one element of the input list per iteration. -/
def main_loop : Globals → List loop_input → loop_result
  | g, [] => if g.shutdown then .exited g [] else .waiting []
  | g, i :: rest =>
      if g.shutdown then .exited g []
      else
        match loop_body g i with
        | none => .aborted ((run_state_machine g i.video).2 ++ [Call.bps_get_event])
        | some (g2, t) => (main_loop g2 rest).after t

/-- The loop body run once per input, without the `shutdown` test: the
variables after the last iteration and all calls issued. -/
def loop_bodies : Globals → List loop_input → Option (Globals × List Call)
  | g, [] => some (g, [])
  | g, i :: rest =>
      match loop_body g i with
      | none => none
      | some (g2, t) =>
          match loop_bodies g2 rest with
          | none => none
          | some (g3, t3) => some (g3, t ++ t3)

/-- The two `if` blocks of `main` that follow the loop. -/
def main_cleanup (g : Globals) : Globals × List Call :=
  let r1 : Globals × List Call :=
    if g.state = state_t.STATE_RECORDING then
      ({ g with state := state_t.STATE_VIEWFINDER },
       [Call.camera_stop_video g.handle, Call.close g.video_fd])
    else (g, [])
  if r1.1.state = state_t.STATE_VIEWFINDER then
    (r1.1, r1.2 ++ [Call.camera_stop_video_viewfinder r1.1.handle, Call.camera_close r1.1.handle])
  else r1

/-- The string `vf_group` of the source. -/
def vf_group : String := "viewfinder_window_group"

/-- The constant `APP_ZORDER` of the source. -/
def APP_ZORDER : Int := 100

/-- Modelled from the spec: the value of `SCREEN_USAGE_NATIVE` belongs to the
platform header screen.h, which is not among the sources; the program only
passes it on and no property below depends on it. -/
def SCREEN_USAGE_NATIVE : Int := 8

/-- The calls `main` issues before `init_camera`: the background window and
the event registration. -/
def main_setup : List Call :=
  [Call.screen_create_context,
   Call.screen_create_window,
   Call.screen_create_window_group vf_group,
   Call.screen_set_window_property_iv .screen_win .SCREEN_PROPERTY_USAGE SCREEN_USAGE_NATIVE,
   Call.screen_create_window_buffers 1,
   Call.screen_get_window_property_pv,
   Call.screen_get_window_property_iv,
   Call.screen_fill,
   Call.screen_post_window,
   Call.screen_set_window_property_iv .screen_win .SCREEN_PROPERTY_ZORDER APP_ZORDER,
   Call.bps_init,
   Call.screen_request_events,
   Call.navigator_request_events]

/-- The calls under the comment `Clean up` at the end of `main`. -/
def window_cleanup : List Call :=
  [Call.screen_stop_events, Call.bps_shutdown, Call.screen_destroy_window,
   Call.screen_destroy_context]

/-- How a run of `main` ends: it returned `code`, the assertion of
`handle_event` aborted the process, or the described inputs ran out inside the
loop.  Each carries all calls issued. -/
inductive main_result where
  | returned (code : Int) (trace : List Call)
  | aborted (trace : List Call)
  | waiting (trace : List Call)
  deriving DecidableEq, Repr

/-- The function `main`, started on the initial variables. -/
def main (a : init_answers) (ins : List loop_input) : main_result :=
  let i := init_camera Globals.init a
  if i.2.1 = EOK then
    match main_loop i.1 ins with
    | .exited g t =>
        .returned 0 (main_setup ++ i.2.2 ++ t ++ (main_cleanup g).2 ++ window_cleanup)
    | .aborted t => .aborted (main_setup ++ i.2.2 ++ t)
    | .waiting t => .waiting (main_setup ++ i.2.2 ++ t)
  else
    .returned 0 (main_setup ++ i.2.2 ++ window_cleanup)

/-! ## Events and answers used in the scenarios -/

/-- The delivery of a `SCREEN_EVENT_MTOUCH_TOUCH` event. -/
def touch_event : bps_get_result :=
  .success (some (.screen .SCREEN_EVENT_MTOUCH_TOUCH none))

/-- The delivery of a `SCREEN_EVENT_CREATE` event whose window `w` is retrieved. -/
def surface_created (w : Nat) : bps_get_result :=
  .success (some (.screen .SCREEN_EVENT_CREATE (some w)))

/-- The delivery of a `NAVIGATOR_EXIT` event. -/
def exit_event : bps_get_result :=
  .success (some (.navigator .NAVIGATOR_EXIT))

/-- Camera answers of a successful `init_camera`: one capable unit, the rear
camera, opened as handle 5. -/
def init_ok : init_answers :=
  { capable := [camera_unit_t.CAMERA_UNIT_REAR]
    cams0 := camera_unit_t.CAMERA_UNIT_NONE
    open_err := 0
    open_handle := 5
    setprop_err := 0
    startvf_err := 0 }

/-- Camera answers of a successful recording start: descriptor 7, file
"VID_0001.mp4". -/
def video_ok : video_answers :=
  { roll_err := 0, roll_fd := 7, roll_filename := "VID_0001.mp4", start_err := 0 }

/-- Whether a delivery is a `SCREEN_EVENT_CREATE` event whose window is
retrieved. -/
def is_surface_created : bps_get_result → Bool
  | .success (some (.screen .SCREEN_EVENT_CREATE (some _))) => true
  | _ => false

/-- Whether a delivery is a `SCREEN_EVENT_MTOUCH_TOUCH` event. -/
def is_touch : bps_get_result → Bool
  | .success (some (.screen .SCREEN_EVENT_MTOUCH_TOUCH _)) => true
  | _ => false

/-- The variables after `k` touch events handled in a row by
`handle_screen_event`. -/
def handle_touches : Nat → Globals → Globals
  | 0, g => g
  | k + 1, g =>
      handle_touches k (handle_screen_event g screen_event_type.SCREEN_EVENT_MTOUCH_TOUCH none).1

/-- Successive `run_state_machine` calls with no event handled in between, one
per element of the list of camera answers: the variables after the last call
and all calls issued. -/
def run_state_machines : Globals → List video_answers → Globals × List Call
  | g, [] => (g, [])
  | g, a :: rest =>
      ((run_state_machines (run_state_machine g a).1 rest).1,
       (run_state_machine g a).2 ++ (run_state_machines (run_state_machine g a).1 rest).2)

/-- The number of transitions in successive `run_state_machine` calls: the
calls after which `state` differs from what it was before the call. -/
def count_transitions : Globals → List video_answers → Nat
  | _, [] => 0
  | g, a :: rest =>
      (if (run_state_machine g a).1.state = g.state then 0 else 1)
        + count_transitions (run_state_machine g a).1 rest

/-- Camera answers of a failed allocation: `camera_roll_open_video` answers
error 12. -/
def video_roll_fails : video_answers :=
  { roll_err := 12, roll_fd := -1, roll_filename := "", start_err := 0 }

/-- The inputs of the scenario Startup, surface created, Viewfinder, touch,
Recording, touch, Viewfinder, exit: one element per loop iteration. -/
def scenario_inputs : List loop_input :=
  [{ video := video_ok, got := surface_created 1 },
   { video := video_ok, got := touch_event },
   { video := video_ok, got := touch_event },
   { video := video_ok, got := exit_event }]

/-- The inputs of a run in which a second surface-created event arrives while
the program is recording: surface created, touch, surface created, exit. -/
def second_surface_inputs : List loop_input :=
  [{ video := video_ok, got := surface_created 1 },
   { video := video_ok, got := touch_event },
   { video := video_ok, got := surface_created 2 },
   { video := video_ok, got := exit_event }]

/-- The variables while recording in that run: after `init_camera`, the first
surface-created event, the touch event and the `run_state_machine` call that
starts the recording into descriptor 7. -/
def recording_globals : Globals :=
  { shutdown := false, vf_win := some 1, state := state_t.STATE_RECORDING, handle := 5,
    shouldmirror := false, touch := false, video_fd := 7 }

/-! ## Reading a trace -/

/-- The file descriptors open after a trace, given those `held` before it: a
`camera_roll_open_video` that returned `CAMERA_EOK` opens its descriptor,
`close` closes one. -/
def fds_left_open : List Call → List Int → List Int
  | [], held => held
  | Call.camera_roll_open_video _ err fd _ :: t, held =>
      fds_left_open t (if err = CAMERA_EOK then held ++ [fd] else held)
  | Call.close fd :: t, held => fds_left_open t (held.erase fd)
  | _ :: t, held => fds_left_open t held

/-- The camera-roll files on disk after a trace, given those `kept` before it:
a `camera_roll_open_video` that returned `CAMERA_EOK` creates its file,
`unlink` deletes one. -/
def files_left : List Call → List String → List String
  | [], kept => kept
  | Call.camera_roll_open_video _ err _ name :: t, kept =>
      files_left t (if err = CAMERA_EOK then kept ++ [name] else kept)
  | Call.unlink name :: t, kept => files_left t (kept.erase name)
  | _ :: t, kept => files_left t kept

/-- The descriptors a trace opened, in order. -/
def fds_opened (t : List Call) : List Int :=
  t.filterMap fun c =>
    match c with
    | Call.camera_roll_open_video _ err fd _ => if err = CAMERA_EOK then some fd else none
    | _ => none

/-- The calls that only `run_state_machine`, `handle_event` and the camera
cleanup after the loop issue: the event wait, the recording calls, the cues,
the two stop calls, `close` and `unlink`. -/
def is_loop_call : Call → Bool
  | Call.bps_get_event => true
  | Call.camera_roll_open_video _ _ _ _ => true
  | Call.camera_start_video _ _ _ => true
  | Call.camera_stop_video _ => true
  | Call.camera_stop_video_viewfinder _ => true
  | Call.soundplayer_play_sound _ => true
  | Call.close _ => true
  | Call.unlink _ => true
  | _ => false

/-- The calls that go to the camera service or to the sound player. -/
def is_camera_or_audio_call : Call → Bool
  | Call.camera_roll_open_video _ _ _ _ => true
  | Call.camera_start_video _ _ _ => true
  | Call.camera_stop_video _ => true
  | Call.camera_find_capable _ => true
  | Call.camera_open _ _ _ => true
  | Call.camera_set_videovf_property _ _ => true
  | Call.camera_start_video_viewfinder _ _ => true
  | Call.camera_stop_video_viewfinder _ => true
  | Call.camera_close _ => true
  | Call.soundplayer_play_sound _ => true
  | _ => false

/-! ## One step of the state machine -/

/-- A step of `run_state_machine` with `touch` clear issues no call and changes
no variable, in every state. -/
theorem run_state_machine_idle (g : Globals) (a : video_answers) (h : g.touch = false) :
    run_state_machine g a = (g, []) := by
  unfold run_state_machine
  cases hs : g.state <;> simp [h]

/-- A step of `run_state_machine` in `STATE_STARTUP` issues no call and changes
no variable. -/
theorem run_state_machine_startup (g : Globals) (a : video_answers)
    (h : g.state = state_t.STATE_STARTUP) : run_state_machine g a = (g, []) := by
  unfold run_state_machine
  simp [h]

/-- C1: in `STATE_VIEWFINDER` with `touch` set, when `camera_roll_open_video`
and `camera_start_video` both return `CAMERA_EOK`, one `run_state_machine`
call clears `touch`, issues exactly the three calls allocate output file,
play "event_recording_start", start recording into that file (in this
order), opens exactly one descriptor, which stays open, and leaves the state
`STATE_RECORDING`; a second call without a new touch issues no call (so it
opens no file) and changes nothing. -/
theorem viewfinder_touch_starts_recording (g : Globals) (a a2 : video_answers)
    (hs : g.state = state_t.STATE_VIEWFINDER) (ht : g.touch = true)
    (hr : a.roll_err = CAMERA_EOK) (hv : a.start_err = CAMERA_EOK) :
    run_state_machine g a =
        ({ g with touch := false, video_fd := a.roll_fd, state := state_t.STATE_RECORDING },
         [Call.camera_roll_open_video g.handle CAMERA_EOK a.roll_fd a.roll_filename,
          Call.soundplayer_play_sound "event_recording_start",
          Call.camera_start_video g.handle a.roll_filename CAMERA_EOK])
      ∧ fds_opened (run_state_machine g a).2 = [a.roll_fd]
      ∧ fds_left_open (run_state_machine g a).2 [] = [a.roll_fd]
      ∧ (run_state_machine g a).1.touch = false
      ∧ (run_state_machine g a).1.state = state_t.STATE_RECORDING
      ∧ run_state_machine (run_state_machine g a).1 a2 = ((run_state_machine g a).1, [])
      ∧ fds_opened (run_state_machine (run_state_machine g a).1 a2).2 = [] := by
  have h1 : run_state_machine g a =
        ({ g with touch := false, video_fd := a.roll_fd, state := state_t.STATE_RECORDING },
         [Call.camera_roll_open_video g.handle CAMERA_EOK a.roll_fd a.roll_filename,
          Call.soundplayer_play_sound "event_recording_start",
          Call.camera_start_video g.handle a.roll_filename CAMERA_EOK]) := by
    unfold run_state_machine
    simp [hs, ht, hr, hv]
  have h2 : run_state_machine (run_state_machine g a).1 a2 = ((run_state_machine g a).1, []) :=
    run_state_machine_idle _ a2 (by rw [h1])
  refine ⟨h1, ?_, ?_, ?_, ?_, h2, ?_⟩
  · rw [h1]; simp [fds_opened]
  · rw [h1]; simp [fds_left_open]
  · rw [h1]
  · rw [h1]
  · rw [h2]; rfl

/-- C1 at a concrete state: handle 5, answers descriptor 7 and file
"VID_0001.mp4". -/
theorem viewfinder_touch_starts_recording_witness :
    run_state_machine
        { shutdown := false, vf_win := some 1, state := state_t.STATE_VIEWFINDER, handle := 5,
          shouldmirror := false, touch := true, video_fd := -1 }
        { roll_err := 0, roll_fd := 7, roll_filename := "VID_0001.mp4", start_err := 0 } =
      ({ shutdown := false, vf_win := some 1, state := state_t.STATE_RECORDING, handle := 5,
         shouldmirror := false, touch := false, video_fd := 7 },
       [Call.camera_roll_open_video 5 0 7 "VID_0001.mp4",
        Call.soundplayer_play_sound "event_recording_start",
        Call.camera_start_video 5 "VID_0001.mp4" 0]) :=
  (viewfinder_touch_starts_recording
    { shutdown := false, vf_win := some 1, state := state_t.STATE_VIEWFINDER, handle := 5,
      shouldmirror := false, touch := true, video_fd := -1 }
    { roll_err := 0, roll_fd := 7, roll_filename := "VID_0001.mp4", start_err := 0 }
    { roll_err := 0, roll_fd := 8, roll_filename := "VID_0002.mp4", start_err := 0 }
    rfl rfl rfl rfl).1

/-- C2: in `STATE_RECORDING` with `touch` set, one `run_state_machine` call
clears `touch`, issues exactly stop recording, close the recording
descriptor, play "event_recording_stop", closes the descriptor exactly once
and leaves the state `STATE_VIEWFINDER`; with `touch` clear it issues no call
and the state stays `STATE_RECORDING`. -/
theorem recording_touch_stops_recording (g : Globals) (a : video_answers)
    (hs : g.state = state_t.STATE_RECORDING) :
    (g.touch = true →
        run_state_machine g a =
          ({ g with touch := false, state := state_t.STATE_VIEWFINDER },
           [Call.camera_stop_video g.handle,
            Call.close g.video_fd,
            Call.soundplayer_play_sound "event_recording_stop"])
        ∧ List.count (Call.close g.video_fd) (run_state_machine g a).2 = 1
        ∧ fds_left_open (run_state_machine g a).2 [g.video_fd] = []
        ∧ (run_state_machine g a).1.touch = false
        ∧ (run_state_machine g a).1.state = state_t.STATE_VIEWFINDER)
      ∧ (g.touch = false →
          run_state_machine g a = (g, [])
          ∧ (run_state_machine g a).1.state = state_t.STATE_RECORDING) := by
  constructor
  · intro ht
    have h1 : run_state_machine g a =
          ({ g with touch := false, state := state_t.STATE_VIEWFINDER },
           [Call.camera_stop_video g.handle,
            Call.close g.video_fd,
            Call.soundplayer_play_sound "event_recording_stop"]) := by
      unfold run_state_machine
      simp [hs, ht]
    refine ⟨h1, ?_, ?_, ?_, ?_⟩
    · rw [h1]; simp [List.count_cons]
    · rw [h1]; simp [fds_left_open]
    · rw [h1]
    · rw [h1]
  · intro ht
    have h1 := run_state_machine_idle g a ht
    exact ⟨h1, by rw [h1]; exact hs⟩

/-- C2 at a concrete state: recording into descriptor 7 on handle 5. -/
theorem recording_touch_stops_recording_witness :
    run_state_machine
        { shutdown := false, vf_win := some 1, state := state_t.STATE_RECORDING, handle := 5,
          shouldmirror := false, touch := true, video_fd := 7 }
        { roll_err := 0, roll_fd := 9, roll_filename := "VID_0002.mp4", start_err := 0 } =
      ({ shutdown := false, vf_win := some 1, state := state_t.STATE_VIEWFINDER, handle := 5,
         shouldmirror := false, touch := false, video_fd := 7 },
       [Call.camera_stop_video 5, Call.close 7,
        Call.soundplayer_play_sound "event_recording_stop"]) :=
  ((recording_touch_stops_recording
    { shutdown := false, vf_win := some 1, state := state_t.STATE_RECORDING, handle := 5,
      shouldmirror := false, touch := true, video_fd := 7 }
    { roll_err := 0, roll_fd := 9, roll_filename := "VID_0002.mp4", start_err := 0 }
    rfl).1 rfl).1

/-- C3: in `STATE_VIEWFINDER` with `touch` set, when `camera_roll_open_video`
does not return `CAMERA_EOK`, `run_state_machine` leaves the state
`STATE_VIEWFINDER`, clears `touch`, plays no cue, does not call
`camera_start_video`, and opens no descriptor: none is open after the step. -/
theorem viewfinder_touch_allocation_fails (g : Globals) (a : video_answers)
    (hs : g.state = state_t.STATE_VIEWFINDER) (ht : g.touch = true)
    (hr : a.roll_err ≠ CAMERA_EOK) :
    (run_state_machine g a).1.state = state_t.STATE_VIEWFINDER
      ∧ (run_state_machine g a).1.touch = false
      ∧ (run_state_machine g a).2 =
          [Call.camera_roll_open_video g.handle a.roll_err a.roll_fd a.roll_filename,
           Call.fprintf_stderr "camera_roll_open_video() failed: %d"]
      ∧ (∀ name, Call.soundplayer_play_sound name ∉ (run_state_machine g a).2)
      ∧ (∀ h name err, Call.camera_start_video h name err ∉ (run_state_machine g a).2)
      ∧ fds_opened (run_state_machine g a).2 = []
      ∧ fds_left_open (run_state_machine g a).2 [] = [] := by
  have h1 : run_state_machine g a =
      ({ g with touch := false, video_fd := a.roll_fd },
       [Call.camera_roll_open_video g.handle a.roll_err a.roll_fd a.roll_filename,
        Call.fprintf_stderr "camera_roll_open_video() failed: %d"]) := by
    unfold run_state_machine
    simp [hs, ht, hr]
  rw [h1]
  refine ⟨hs, rfl, rfl, ?_, ?_, ?_, ?_⟩
  · intro name; simp
  · intro h name err; simp
  · simp [fds_opened, hr]
  · simp [fds_left_open, hr]

/-- C3 at a concrete state: the allocation answers error 12. -/
theorem viewfinder_touch_allocation_fails_witness :
    (run_state_machine
        { shutdown := false, vf_win := some 1, state := state_t.STATE_VIEWFINDER, handle := 5,
          shouldmirror := false, touch := true, video_fd := -1 }
        { roll_err := 12, roll_fd := -1, roll_filename := "", start_err := 0 }).1.state
      = state_t.STATE_VIEWFINDER :=
  (viewfinder_touch_allocation_fails
    { shutdown := false, vf_win := some 1, state := state_t.STATE_VIEWFINDER, handle := 5,
      shouldmirror := false, touch := true, video_fd := -1 }
    { roll_err := 12, roll_fd := -1, roll_filename := "", start_err := 0 }
    rfl rfl (by decide)).1

/-- C4: in `STATE_VIEWFINDER` with `touch` set, when the allocation succeeds
and `camera_start_video` does not return `CAMERA_EOK`, `run_state_machine`
closes the descriptor just allocated exactly once, unlinks the allocated
file name, plays "event_recording_stop" after "event_recording_start", and
leaves the state `STATE_VIEWFINDER` with `touch` clear; no descriptor and no
file allocated in the step remains. -/
theorem viewfinder_touch_start_fails (g : Globals) (a : video_answers)
    (hs : g.state = state_t.STATE_VIEWFINDER) (ht : g.touch = true)
    (hr : a.roll_err = CAMERA_EOK) (hv : a.start_err ≠ CAMERA_EOK) :
    run_state_machine g a =
        ({ g with touch := false, video_fd := a.roll_fd },
         [Call.camera_roll_open_video g.handle CAMERA_EOK a.roll_fd a.roll_filename,
          Call.soundplayer_play_sound "event_recording_start",
          Call.camera_start_video g.handle a.roll_filename a.start_err,
          Call.fprintf_stderr "camera_start_video() failed: %d",
          Call.close a.roll_fd,
          Call.unlink a.roll_filename,
          Call.soundplayer_play_sound "event_recording_stop"])
      ∧ List.count (Call.close a.roll_fd) (run_state_machine g a).2 = 1
      ∧ List.count (Call.unlink a.roll_filename) (run_state_machine g a).2 = 1
      ∧ (run_state_machine g a).1.state = state_t.STATE_VIEWFINDER
      ∧ (run_state_machine g a).1.touch = false
      ∧ fds_left_open (run_state_machine g a).2 [] = []
      ∧ files_left (run_state_machine g a).2 [] = [] := by
  have h1 : run_state_machine g a =
        ({ g with touch := false, video_fd := a.roll_fd },
         [Call.camera_roll_open_video g.handle CAMERA_EOK a.roll_fd a.roll_filename,
          Call.soundplayer_play_sound "event_recording_start",
          Call.camera_start_video g.handle a.roll_filename a.start_err,
          Call.fprintf_stderr "camera_start_video() failed: %d",
          Call.close a.roll_fd,
          Call.unlink a.roll_filename,
          Call.soundplayer_play_sound "event_recording_stop"]) := by
    unfold run_state_machine
    simp [hs, ht, hr, hv]
  rw [h1]
  refine ⟨rfl, ?_, ?_, hs, rfl, ?_, ?_⟩
  · simp [List.count_cons]
  · simp [List.count_cons]
  · simp [fds_left_open]
  · simp [files_left]

/-- C4 at a concrete state: descriptor 7 and file "VID_0001.mp4" are allocated,
then `camera_start_video` answers error 16. -/
theorem viewfinder_touch_start_fails_witness :
    run_state_machine
        { shutdown := false, vf_win := some 1, state := state_t.STATE_VIEWFINDER, handle := 5,
          shouldmirror := false, touch := true, video_fd := -1 }
        { roll_err := 0, roll_fd := 7, roll_filename := "VID_0001.mp4", start_err := 16 } =
      ({ shutdown := false, vf_win := some 1, state := state_t.STATE_VIEWFINDER, handle := 5,
         shouldmirror := false, touch := false, video_fd := 7 },
       [Call.camera_roll_open_video 5 0 7 "VID_0001.mp4",
        Call.soundplayer_play_sound "event_recording_start",
        Call.camera_start_video 5 "VID_0001.mp4" 16,
        Call.fprintf_stderr "camera_start_video() failed: %d",
        Call.close 7,
        Call.unlink "VID_0001.mp4",
        Call.soundplayer_play_sound "event_recording_stop"]) :=
  (viewfinder_touch_start_fails
    { shutdown := false, vf_win := some 1, state := state_t.STATE_VIEWFINDER, handle := 5,
      shouldmirror := false, touch := true, video_fd := -1 }
    { roll_err := 0, roll_fd := 7, roll_filename := "VID_0001.mp4", start_err := 16 }
    rfl rfl rfl (by decide)).1

/-! ## The run of `main` -/

/-- When the loop of `main` exits, `shutdown` is set. -/
theorem main_loop_exited_shutdown (ins : List loop_input) :
    ∀ (g g1 : Globals) (t : List Call), main_loop g ins = .exited g1 t → g1.shutdown = true := by
  induction ins with
  | nil =>
      intro g g1 t h
      unfold main_loop at h
      split at h
      · injection h with hg _
        subst hg
        assumption
      · cases h
  | cons i rest ih =>
      intro g g1 t h
      unfold main_loop at h
      split at h
      · injection h with hg _
        subst hg
        assumption
      · split at h
        · cases h
        · rename_i g2 t2 _
          cases hr : main_loop g2 rest with
          | exited g3 t3 =>
              rw [hr] at h
              simp only [loop_result.after] at h
              injection h with hg _
              subst hg
              exact ih g2 g3 t3 hr
          | aborted t3 => rw [hr] at h; simp [loop_result.after] at h
          | waiting t3 => rw [hr] at h; simp [loop_result.after] at h

/-- The calls of the `camera_find_capable` loop are none of the calls that
belong to the main loop and its camera cleanup. -/
theorem find_capable_trace_no_loop_call (l : List camera_unit_t) :
    ∀ c ∈ find_capable_trace l, is_loop_call c = false := by
  induction l with
  | nil => intro c hc; simp [find_capable_trace] at hc; subst hc; rfl
  | cons u rest ih =>
      intro c hc
      simp only [find_capable_trace, List.mem_cons] at hc
      rcases hc with h | h | h
      · subst h; rfl
      · subst h; rfl
      · exact ih c h

/-- The calls of `init_camera` are none of the calls that belong to the main
loop and its camera cleanup. -/
theorem init_camera_no_loop_call (g : Globals) (a : init_answers) :
    ∀ c ∈ (init_camera g a).2.2, is_loop_call c = false := by
  intro c hc
  have hf := find_capable_trace_no_loop_call a.capable
  unfold init_camera at hc
  simp only at hc
  split at hc
  · simp only [List.mem_append, List.mem_cons, List.mem_singleton, List.not_mem_nil,
      or_false] at hc
    rcases hc with (h | h | h) | h
    · exact hf c h
    · subst h; rfl
    · subst h; rfl
    · subst h; rfl
  · split at hc
    · simp only [List.mem_append, List.mem_cons, List.mem_singleton, List.not_mem_nil,
        or_false] at hc
      rcases hc with ((h | h | h) | h) | h | h
      · exact hf c h
      · subst h; rfl
      · subst h; rfl
      · subst h; rfl
      · subst h; rfl
      · subst h; rfl
    · split at hc
      · simp only [List.mem_append, List.mem_cons, List.mem_singleton, List.not_mem_nil,
          or_false] at hc
        rcases hc with (((h | h | h) | h) | h) | h | h
        · exact hf c h
        · subst h; rfl
        · subst h; rfl
        · subst h; rfl
        · subst h; rfl
        · subst h; rfl
        · subst h; rfl
      · simp only [List.mem_append, List.mem_cons, List.mem_singleton, List.not_mem_nil,
          or_false] at hc
        rcases hc with ((h | h | h) | h) | h
        · exact hf c h
        · subst h; rfl
        · subst h; rfl
        · subst h; rfl
        · subst h; rfl

/-- C7: after a successful `init_camera`, when the loop of `main` has exited
(with `shutdown` set), the cleanup is determined by the state at exit: in
`STATE_RECORDING` stop recording, close the recording file, then stop the
viewfinder and close the camera; in `STATE_VIEWFINDER` exactly stop the
viewfinder and close the camera; in `STATE_STARTUP` no call at all; in every
case the window and event cleanup follows (`screen_stop_events`,
`bps_shutdown`, `screen_destroy_window`, `screen_destroy_context`, the last
calls of the run) and `main` returns 0. -/
theorem main_cleanup_by_state (a : init_answers) (ins : List loop_input) (g : Globals)
    (t : List Call)
    (hinit : (init_camera Globals.init a).2.1 = EOK)
    (hloop : main_loop (init_camera Globals.init a).1 ins = .exited g t) :
    g.shutdown = true
      ∧ main a ins =
          .returned 0
            (main_setup ++ (init_camera Globals.init a).2.2 ++ t ++ (main_cleanup g).2
              ++ [Call.screen_stop_events, Call.bps_shutdown, Call.screen_destroy_window,
                  Call.screen_destroy_context])
      ∧ (g.state = state_t.STATE_RECORDING →
          (main_cleanup g).2 =
            [Call.camera_stop_video g.handle, Call.close g.video_fd,
             Call.camera_stop_video_viewfinder g.handle, Call.camera_close g.handle])
      ∧ (g.state = state_t.STATE_VIEWFINDER →
          (main_cleanup g).2 =
            [Call.camera_stop_video_viewfinder g.handle, Call.camera_close g.handle])
      ∧ (g.state = state_t.STATE_STARTUP → (main_cleanup g).2 = []) := by
  refine ⟨main_loop_exited_shutdown ins _ g t hloop, ?_, ?_, ?_, ?_⟩
  · unfold main
    simp only [hinit, hloop, if_true]
    rfl
  · intro hs; simp [main_cleanup, hs]
  · intro hs; simp [main_cleanup, hs]
  · intro hs; simp [main_cleanup, hs]

/-- C7, the scenario Startup, surface created, Viewfinder, touch, Recording,
touch, Viewfinder, exit: `main` returns 0, and its calls end with the
viewfinder stopped, the camera closed and the window cleanup. -/
theorem main_cleanup_by_state_witness :
    main init_ok scenario_inputs =
      .returned 0
        (main_setup
          ++ [Call.camera_find_capable (some camera_unit_t.CAMERA_UNIT_REAR),
              Call.fprintf_stderr "camera unit %d supports the required features\n",
              Call.camera_find_capable none,
              Call.fprintf_stderr "selecting camera unit %d\n",
              Call.camera_open camera_unit_t.CAMERA_UNIT_REAR 0 5,
              Call.camera_set_videovf_property 5 0,
              Call.camera_start_video_viewfinder 5 0]
          ++ [Call.bps_get_event,
              Call.fprintf_stderr "viewfinder window found!\n",
              Call.screen_set_window_property_iv (.vf 1) .SCREEN_PROPERTY_MIRROR 0,
              Call.screen_set_window_property_iv (.vf 1) .SCREEN_PROPERTY_ZORDER 1,
              Call.screen_set_window_property_iv (.vf 1) .SCREEN_PROPERTY_VISIBLE 1,
              Call.screen_flush_context,
              Call.bps_get_event,
              Call.fprintf_stderr "Touch event\n",
              Call.camera_roll_open_video 5 0 7 "VID_0001.mp4",
              Call.soundplayer_play_sound "event_recording_start",
              Call.camera_start_video 5 "VID_0001.mp4" 0,
              Call.bps_get_event,
              Call.fprintf_stderr "Touch event\n",
              Call.camera_stop_video 5,
              Call.close 7,
              Call.soundplayer_play_sound "event_recording_stop",
              Call.bps_get_event,
              Call.fprintf_stderr "Exit event\n"]
          ++ [Call.camera_stop_video_viewfinder 5, Call.camera_close 5]
          ++ [Call.screen_stop_events, Call.bps_shutdown, Call.screen_destroy_window,
              Call.screen_destroy_context]) :=
  (main_cleanup_by_state init_ok scenario_inputs
    { shutdown := true, vf_win := some 1, state := state_t.STATE_VIEWFINDER, handle := 5,
      shouldmirror := false, touch := false, video_fd := 7 }
    [Call.bps_get_event,
     Call.fprintf_stderr "viewfinder window found!\n",
     Call.screen_set_window_property_iv (.vf 1) .SCREEN_PROPERTY_MIRROR 0,
     Call.screen_set_window_property_iv (.vf 1) .SCREEN_PROPERTY_ZORDER 1,
     Call.screen_set_window_property_iv (.vf 1) .SCREEN_PROPERTY_VISIBLE 1,
     Call.screen_flush_context,
     Call.bps_get_event,
     Call.fprintf_stderr "Touch event\n",
     Call.camera_roll_open_video 5 0 7 "VID_0001.mp4",
     Call.soundplayer_play_sound "event_recording_start",
     Call.camera_start_video 5 "VID_0001.mp4" 0,
     Call.bps_get_event,
     Call.fprintf_stderr "Touch event\n",
     Call.camera_stop_video 5,
     Call.close 7,
     Call.soundplayer_play_sound "event_recording_stop",
     Call.bps_get_event,
     Call.fprintf_stderr "Exit event\n"]
    rfl rfl).2.1

/-- C8: when `camera_open`, `camera_set_videovf_property` or
`camera_start_video_viewfinder` fails, `init_camera` returns a non-zero value;
when the failure is the configuration or the viewfinder start it closes the
camera (its last call) and resets `handle` to `CAMERA_HANDLE_INVALID`; `main`
then returns 0 whatever the inputs of the loop are, having issued only its
setup, the calls of `init_camera` and the window and event cleanup
(`screen_stop_events`, `bps_shutdown`, `screen_destroy_window`,
`screen_destroy_context`): no event wait, no recording call, no stop call. -/
theorem init_failure_skips_loop (g : Globals) (a : init_answers) (ins : List loop_input)
    (hfail : a.open_err ≠ CAMERA_EOK ∨ a.setprop_err ≠ CAMERA_EOK
      ∨ a.startvf_err ≠ CAMERA_EOK) :
    (init_camera g a).2.1 ≠ 0
      ∧ (a.open_err = CAMERA_EOK →
          (init_camera g a).1.handle = CAMERA_HANDLE_INVALID
          ∧ (init_camera g a).2.2.getLast? = some (Call.camera_close a.open_handle))
      ∧ main a ins =
          .returned 0
            (main_setup ++ (init_camera Globals.init a).2.2
              ++ [Call.screen_stop_events, Call.bps_shutdown, Call.screen_destroy_window,
                  Call.screen_destroy_context])
      ∧ (∀ c ∈ main_setup ++ (init_camera Globals.init a).2.2
            ++ [Call.screen_stop_events, Call.bps_shutdown, Call.screen_destroy_window,
                Call.screen_destroy_context],
          is_loop_call c = false) := by
  have hret : ∀ g0 : Globals, (init_camera g0 a).2.1 ≠ 0 := by
    intro g0
    unfold init_camera
    simp only
    split
    · assumption
    · split
      · assumption
      · split
        · assumption
        · rename_i h1 h2 h3
          rcases hfail with h | h | h
          · exact absurd h h1
          · exact absurd h h2
          · exact absurd h h3
  refine ⟨hret g, ?_, ?_, ?_⟩
  · intro hopen
    unfold init_camera
    simp only [hopen, ne_eq, not_true_eq_false, if_false]
    split
    · simp
    · split
      · simp
      · rename_i h2 h3
        rcases hfail with h | h | h
        · exact absurd hopen h
        · exact absurd h h2
        · exact absurd h h3
  · unfold main
    have := hret Globals.init
    simp only [EOK, this, if_false]
    rfl
  · intro c hc
    simp only [List.mem_append] at hc
    rcases hc with (h | h) | h
    · revert c; decide
    · exact init_camera_no_loop_call _ a c h
    · revert c; decide

/-- C8 at concrete answers: `camera_open` answers error 19. -/
theorem init_failure_skips_loop_witness :
    main { capable := [], cams0 := camera_unit_t.CAMERA_UNIT_NONE, open_err := 19,
           open_handle := -1, setprop_err := 0, startvf_err := 0 } scenario_inputs =
      .returned 0
        (main_setup
          ++ [Call.camera_find_capable none,
              Call.fprintf_stderr "selecting camera unit %d\n",
              Call.camera_open camera_unit_t.CAMERA_UNIT_NONE 19 (-1),
              Call.fprintf_stderr "camera_open() failed: %d\n"]
          ++ [Call.screen_stop_events, Call.bps_shutdown, Call.screen_destroy_window,
              Call.screen_destroy_context]) :=
  (init_failure_skips_loop Globals.init
    { capable := [], cams0 := camera_unit_t.CAMERA_UNIT_NONE, open_err := 19,
      open_handle := -1, setprop_err := 0, startvf_err := 0 }
    scenario_inputs (Or.inl (by decide))).2.2.1

/-! ## Events -/

/-- Handling a touch event writes `touch` and nothing else. -/
theorem handle_screen_event_touch (g : Globals) (w : Option Nat) :
    handle_screen_event g screen_event_type.SCREEN_EVENT_MTOUCH_TOUCH w =
      ({ g with touch := true }, [Call.fprintf_stderr "Touch event\n"]) := rfl

/-- After one or more touch events in a row, the variables are the ones before
with `touch` set. -/
theorem handle_touches_eq (k : Nat) (hk : 1 ≤ k) (g : Globals) :
    handle_touches k g = { g with touch := true } := by
  induction k generalizing g with
  | zero => omega
  | succ n ih =>
      cases n with
      | zero => rfl
      | succ m =>
          have := ih (by omega) (handle_screen_event g screen_event_type.SCREEN_EVENT_MTOUCH_TOUCH none).1
          unfold handle_touches
          rw [this]
          rfl

/-- A delivered event other than a surface-created one leaves `state`
unchanged, sets `touch` exactly when it is a touch event, and causes no camera
or audio call. -/
theorem handle_event_keeps_state (g : Globals) (r : bps_get_result)
    (hd : r ≠ bps_get_result.failure) (hc : is_surface_created r = false) :
    ∃ g1 t, handle_event g r = some (g1, t) ∧ g1.state = g.state
      ∧ g1.touch = (g.touch || is_touch r)
      ∧ ∀ c ∈ t, is_camera_or_audio_call c = false := by
  cases r with
  | failure => exact absurd rfl hd
  | success e =>
      cases e with
      | none => exact ⟨g, _, rfl, rfl, by simp [is_touch], by simp [is_camera_or_audio_call]⟩
      | some ev =>
          cases ev with
          | other_domain =>
              exact ⟨g, _, rfl, rfl, by simp [is_touch], by simp [is_camera_or_audio_call]⟩
          | navigator code =>
              cases code <;>
                exact ⟨_, _, rfl, rfl, by simp [is_touch, handle_navigator_event],
                  by simp [handle_navigator_event, is_camera_or_audio_call]⟩
          | screen type window =>
              cases type with
              | SCREEN_EVENT_CREATE =>
                  cases window with
                  | none =>
                      exact ⟨_, _, rfl, rfl, by simp [is_touch, handle_screen_event],
                        by simp [handle_screen_event, is_camera_or_audio_call]⟩
                  | some w => simp [is_surface_created] at hc
              | SCREEN_EVENT_MTOUCH_TOUCH =>
                  exact ⟨_, _, rfl, rfl, by simp [is_touch, handle_screen_event],
                    by simp [handle_screen_event, is_camera_or_audio_call]⟩
              | SCREEN_EVENT_MTOUCH_MOVE =>
                  exact ⟨_, _, rfl, rfl, by simp [is_touch, handle_screen_event],
                    by simp [handle_screen_event, is_camera_or_audio_call]⟩
              | SCREEN_EVENT_MTOUCH_RELEASE =>
                  exact ⟨_, _, rfl, rfl, by simp [is_touch, handle_screen_event],
                    by simp [handle_screen_event, is_camera_or_audio_call]⟩
              | other n =>
                  exact ⟨_, _, rfl, rfl, by simp [is_touch, handle_screen_event],
                    by simp [handle_screen_event, is_camera_or_audio_call]⟩

/-- Loop iterations in `STATE_STARTUP` whose events are delivered and are not
surface-created events all run, stay in `STATE_STARTUP`, latch `touch` when a
touch event is among them, and cause no camera or audio call. -/
theorem loop_bodies_in_startup (ins : List loop_input) :
    ∀ g : Globals, g.state = state_t.STATE_STARTUP →
      (∀ i ∈ ins, i.got ≠ bps_get_result.failure) →
      (∀ i ∈ ins, is_surface_created i.got = false) →
      ∃ g1 t1, loop_bodies g ins = some (g1, t1) ∧ g1.state = state_t.STATE_STARTUP
        ∧ g1.touch = (g.touch || ins.any fun i => is_touch i.got)
        ∧ ∀ c ∈ t1, is_camera_or_audio_call c = false := by
  induction ins with
  | nil =>
      intro g hs _ _
      exact ⟨g, [], rfl, hs, by simp, by simp⟩
  | cons i rest ih =>
      intro g hs hd hc
      obtain ⟨g2, t2, h2, hs2, ht2, hc2⟩ :=
        handle_event_keeps_state g i.got (hd i (List.mem_cons_self _ _))
          (hc i (List.mem_cons_self _ _))
      obtain ⟨g3, t3, h3, hs3, ht3, hc3⟩ :=
        ih g2 (hs2.trans hs) (fun j hj => hd j (List.mem_cons_of_mem _ hj))
          (fun j hj => hc j (List.mem_cons_of_mem _ hj))
      have hb : loop_body g i = some (g2, t2) := by
        unfold loop_body
        simp only [run_state_machine_startup g i.video hs, h2, List.nil_append]
      refine ⟨g3, t2 ++ t3, ?_, hs3, ?_, ?_⟩
      · unfold loop_bodies
        simp only [hb, h3]
      · rw [ht3, ht2, List.any_cons, Bool.or_assoc]
      · intro c hmem
        rcases List.mem_append.mp hmem with h | h
        · exact hc2 c h
        · exact hc3 c h

/-- C9: loop iterations in `STATE_STARTUP` whose events are delivered, are
handled while the state is `STATE_STARTUP` (none is a surface-created event)
and contain a touch event all run; they end in `STATE_STARTUP` with `touch`
set and without any camera or audio call.  The iteration that then receives a
surface-created event with its window retrieved ends in `STATE_VIEWFINDER`
with `touch` clear, so the next `run_state_machine` call issues no call and
changes nothing: the touch starts no recording.  And `run_state_machine` in
`STATE_STARTUP` changes nothing, whatever `touch` is. -/
theorem startup_touch_is_dropped (g : Globals) (ins : List loop_input) (w : Nat)
    (a a2 : video_answers)
    (hs : g.state = state_t.STATE_STARTUP)
    (hd : ∀ i ∈ ins, i.got ≠ bps_get_result.failure)
    (hc : ∀ i ∈ ins, is_surface_created i.got = false)
    (ht : ∃ i ∈ ins, is_touch i.got = true) :
    (∃ g1 t1 g2 t2,
        loop_bodies g ins = some (g1, t1)
        ∧ g1.state = state_t.STATE_STARTUP ∧ g1.touch = true
        ∧ (∀ c ∈ t1, is_camera_or_audio_call c = false)
        ∧ loop_body g1 { video := a, got := surface_created w } = some (g2, t2)
        ∧ g2.state = state_t.STATE_VIEWFINDER ∧ g2.touch = false
        ∧ (∀ c ∈ t2, is_camera_or_audio_call c = false)
        ∧ run_state_machine g2 a2 = (g2, []))
      ∧ ∀ (g0 : Globals) (a0 : video_answers),
          g0.state = state_t.STATE_STARTUP → run_state_machine g0 a0 = (g0, []) := by
  refine ⟨?_, fun g0 a0 h0 => run_state_machine_startup g0 a0 h0⟩
  obtain ⟨g1, t1, h1, hs1, ht1, hc1⟩ := loop_bodies_in_startup ins g hs hd hc
  have htouch : g1.touch = true := by
    rw [ht1]
    obtain ⟨i, hi, hit⟩ := ht
    have : (ins.any fun i => is_touch i.got) = true := List.any_eq_true.mpr ⟨i, hi, hit⟩
    simp [this]
  refine ⟨g1, t1,
    { g1 with vf_win := some w, touch := false, state := state_t.STATE_VIEWFINDER },
    [Call.bps_get_event,
     Call.fprintf_stderr "viewfinder window found!\n",
     Call.screen_set_window_property_iv (.vf w) .SCREEN_PROPERTY_MIRROR
       (if g1.shouldmirror then 1 else 0),
     Call.screen_set_window_property_iv (.vf w) .SCREEN_PROPERTY_ZORDER 1,
     Call.screen_set_window_property_iv (.vf w) .SCREEN_PROPERTY_VISIBLE 1,
     Call.screen_flush_context],
    h1, hs1, htouch, hc1, ?_, rfl, rfl, ?_, run_state_machine_idle _ a2 rfl⟩
  · unfold loop_body
    simp only [run_state_machine_startup g1 a hs1, surface_created, handle_event,
      handle_screen_event, List.nil_append]
  · intro c hmem
    simp only [List.mem_cons, List.mem_singleton, List.not_mem_nil, or_false] at hmem
    rcases hmem with h | h | h | h | h | h <;> subst h <;> rfl

/-- C9 at a concrete run: two touch events and a move event before the
viewfinder window exists, then the surface-created event for window 1. -/
theorem startup_touch_is_dropped_witness :
    ∃ g1 t1 g2 t2,
      loop_bodies Globals.init
          [{ video := video_ok, got := touch_event },
           { video := video_ok,
             got := .success (some (.screen screen_event_type.SCREEN_EVENT_MTOUCH_MOVE none)) },
           { video := video_ok, got := touch_event }] = some (g1, t1)
      ∧ g1.state = state_t.STATE_STARTUP ∧ g1.touch = true
      ∧ (∀ c ∈ t1, is_camera_or_audio_call c = false)
      ∧ loop_body g1 { video := video_ok, got := surface_created 1 } = some (g2, t2)
      ∧ g2.state = state_t.STATE_VIEWFINDER ∧ g2.touch = false
      ∧ (∀ c ∈ t2, is_camera_or_audio_call c = false)
      ∧ run_state_machine g2 video_ok = (g2, []) :=
  (startup_touch_is_dropped Globals.init
    [{ video := video_ok, got := touch_event },
     { video := video_ok,
       got := .success (some (.screen screen_event_type.SCREEN_EVENT_MTOUCH_MOVE none)) },
     { video := video_ok, got := touch_event }]
    1 video_ok video_ok rfl (by decide) (by decide)
    ⟨{ video := video_ok, got := touch_event }, by decide, rfl⟩).1

/-! ## Touch coalescing -/

/-- Successive `run_state_machine` calls that start with `touch` clear issue
no call, change no variable and make no transition. -/
theorem run_state_machines_idle (rest : List video_answers) :
    ∀ g : Globals, g.touch = false →
      run_state_machines g rest = (g, []) ∧ count_transitions g rest = 0 := by
  induction rest with
  | nil => intro g _; exact ⟨rfl, rfl⟩
  | cons a rest ih =>
      intro g h
      have h1 := run_state_machine_idle g a h
      obtain ⟨h2, h3⟩ := ih g h
      constructor
      · simp only [run_state_machines, h1, h2, List.append_nil]
      · simp only [count_transitions, h1, h3, if_true]

/-- C10, as amended: handling a touch event writes only `touch`, so handling
it again yields the same variables, and any number `k ≥ 1` of touch events in
a row leaves the variables with `touch` set.  Over the `run_state_machine`
calls that follow (the first with answers `a1`, then any number more), with
no further event: in `STATE_RECORDING` the first call consumes the flag and
makes exactly one transition, to `STATE_VIEWFINDER`, with the calls stop,
close, stop cue, and the later calls issue nothing and change nothing; in
`STATE_VIEWFINDER` the first call consumes the flag and makes one recording
attempt, which is exactly one transition (to `STATE_RECORDING`) when the
allocation and the recording start both succeed and no transition when either
fails, and the later calls issue nothing and change nothing; in
`STATE_STARTUP` no call consumes the flag, issues anything or makes a
transition. -/
theorem touch_coalescing (g : Globals) (k : Nat) (hk : 1 ≤ k) (a1 : video_answers)
    (rest : List video_answers) :
    (∀ w w2 : Option Nat,
        (handle_screen_event
            (handle_screen_event g screen_event_type.SCREEN_EVENT_MTOUCH_TOUCH w).1
            screen_event_type.SCREEN_EVENT_MTOUCH_TOUCH w2).1
          = (handle_screen_event g screen_event_type.SCREEN_EVENT_MTOUCH_TOUCH w).1
        ∧ (handle_screen_event g screen_event_type.SCREEN_EVENT_MTOUCH_TOUCH w).1
          = { g with touch := true })
      ∧ handle_touches k g = { g with touch := true }
      ∧ (g.state = state_t.STATE_RECORDING →
          run_state_machine (handle_touches k g) a1 =
            ({ g with touch := false, state := state_t.STATE_VIEWFINDER },
             [Call.camera_stop_video g.handle,
              Call.close g.video_fd,
              Call.soundplayer_play_sound "event_recording_stop"])
          ∧ count_transitions (handle_touches k g) (a1 :: rest) = 1
          ∧ run_state_machines (handle_touches k g) (a1 :: rest)
              = run_state_machine (handle_touches k g) a1)
      ∧ (g.state = state_t.STATE_VIEWFINDER →
          (run_state_machine (handle_touches k g) a1).1.touch = false
          ∧ (a1.roll_err = CAMERA_EOK → a1.start_err = CAMERA_EOK →
              run_state_machine (handle_touches k g) a1 =
                ({ g with touch := false, video_fd := a1.roll_fd,
                          state := state_t.STATE_RECORDING },
                 [Call.camera_roll_open_video g.handle CAMERA_EOK a1.roll_fd a1.roll_filename,
                  Call.soundplayer_play_sound "event_recording_start",
                  Call.camera_start_video g.handle a1.roll_filename CAMERA_EOK])
              ∧ count_transitions (handle_touches k g) (a1 :: rest) = 1)
          ∧ (a1.roll_err ≠ CAMERA_EOK →
              run_state_machine (handle_touches k g) a1 =
                ({ g with touch := false, video_fd := a1.roll_fd },
                 [Call.camera_roll_open_video g.handle a1.roll_err a1.roll_fd a1.roll_filename,
                  Call.fprintf_stderr "camera_roll_open_video() failed: %d"])
              ∧ count_transitions (handle_touches k g) (a1 :: rest) = 0)
          ∧ (a1.roll_err = CAMERA_EOK → a1.start_err ≠ CAMERA_EOK →
              run_state_machine (handle_touches k g) a1 =
                ({ g with touch := false, video_fd := a1.roll_fd },
                 [Call.camera_roll_open_video g.handle CAMERA_EOK a1.roll_fd a1.roll_filename,
                  Call.soundplayer_play_sound "event_recording_start",
                  Call.camera_start_video g.handle a1.roll_filename a1.start_err,
                  Call.fprintf_stderr "camera_start_video() failed: %d",
                  Call.close a1.roll_fd,
                  Call.unlink a1.roll_filename,
                  Call.soundplayer_play_sound "event_recording_stop"])
              ∧ count_transitions (handle_touches k g) (a1 :: rest) = 0)
          ∧ run_state_machines (handle_touches k g) (a1 :: rest)
              = run_state_machine (handle_touches k g) a1)
      ∧ (g.state = state_t.STATE_STARTUP →
          run_state_machines (handle_touches k g) (a1 :: rest) = (handle_touches k g, [])
          ∧ (run_state_machines (handle_touches k g) (a1 :: rest)).1.touch = true
          ∧ count_transitions (handle_touches k g) (a1 :: rest) = 0) := by
  have hk' := handle_touches_eq k hk g
  -- once the first call has cleared the flag, the later calls are idle
  have tail : ∀ r : Globals × List Call, run_state_machine (handle_touches k g) a1 = r →
      r.1.touch = false →
      run_state_machines (handle_touches k g) (a1 :: rest)
          = run_state_machine (handle_touches k g) a1
        ∧ count_transitions (handle_touches k g) (a1 :: rest)
          = (if r.1.state = (handle_touches k g).state then 0 else 1) := by
    intro r hr ht
    obtain ⟨h2, h3⟩ := run_state_machines_idle rest r.1 ht
    constructor
    · simp only [run_state_machines, hr, h2, List.append_nil]
    · simp only [count_transitions, hr, h3, Nat.add_zero]
  refine ⟨fun w w2 => ⟨rfl, rfl⟩, hk', ?_, ?_, ?_⟩
  · intro hs
    have h1 : run_state_machine (handle_touches k g) a1 =
        ({ g with touch := false, state := state_t.STATE_VIEWFINDER },
         [Call.camera_stop_video g.handle,
          Call.close g.video_fd,
          Call.soundplayer_play_sound "event_recording_stop"]) := by
      rw [hk']
      unfold run_state_machine
      simp [hs]
    obtain ⟨h2, h3⟩ := tail _ h1 rfl
    refine ⟨h1, ?_, h2⟩
    rw [h3, hk']
    simp [hs]
  · intro hs
    have hok : a1.roll_err = CAMERA_EOK → a1.start_err = CAMERA_EOK →
        run_state_machine (handle_touches k g) a1 =
          ({ g with touch := false, video_fd := a1.roll_fd,
                    state := state_t.STATE_RECORDING },
           [Call.camera_roll_open_video g.handle CAMERA_EOK a1.roll_fd a1.roll_filename,
            Call.soundplayer_play_sound "event_recording_start",
            Call.camera_start_video g.handle a1.roll_filename CAMERA_EOK]) := by
      intro hr hv
      rw [hk']
      unfold run_state_machine
      simp [hs, hr, hv]
    have hroll : a1.roll_err ≠ CAMERA_EOK →
        run_state_machine (handle_touches k g) a1 =
          ({ g with touch := false, video_fd := a1.roll_fd },
           [Call.camera_roll_open_video g.handle a1.roll_err a1.roll_fd a1.roll_filename,
            Call.fprintf_stderr "camera_roll_open_video() failed: %d"]) := by
      intro hr
      rw [hk']
      unfold run_state_machine
      simp [hs, hr]
    have hstart : a1.roll_err = CAMERA_EOK → a1.start_err ≠ CAMERA_EOK →
        run_state_machine (handle_touches k g) a1 =
          ({ g with touch := false, video_fd := a1.roll_fd },
           [Call.camera_roll_open_video g.handle CAMERA_EOK a1.roll_fd a1.roll_filename,
            Call.soundplayer_play_sound "event_recording_start",
            Call.camera_start_video g.handle a1.roll_filename a1.start_err,
            Call.fprintf_stderr "camera_start_video() failed: %d",
            Call.close a1.roll_fd,
            Call.unlink a1.roll_filename,
            Call.soundplayer_play_sound "event_recording_stop"]) := by
      intro hr hv
      rw [hk']
      unfold run_state_machine
      simp [hs, hr, hv]
    have hclear : (run_state_machine (handle_touches k g) a1).1.touch = false := by
      by_cases hr : a1.roll_err = CAMERA_EOK
      · by_cases hv : a1.start_err = CAMERA_EOK
        · rw [hok hr hv]
        · rw [hstart hr hv]
      · rw [hroll hr]
    obtain ⟨h2, h3⟩ := tail _ rfl hclear
    refine ⟨hclear, ?_, ?_, ?_, h2⟩
    · intro hr hv
      refine ⟨hok hr hv, ?_⟩
      rw [h3, hok hr hv, hk']
      simp [hs]
    · intro hr
      refine ⟨hroll hr, ?_⟩
      rw [h3, hroll hr, hk']
      simp [hs]
    · intro hr hv
      refine ⟨hstart hr hv, ?_⟩
      rw [h3, hstart hr hv, hk']
      simp [hs]
  · intro hs
    have hs' : (handle_touches k g).state = state_t.STATE_STARTUP := by rw [hk']; exact hs
    have hall : ∀ (l : List video_answers) (g0 : Globals),
        g0.state = state_t.STATE_STARTUP →
        run_state_machines g0 l = (g0, []) ∧ count_transitions g0 l = 0 := by
      intro l
      induction l with
      | nil => intro g0 _; exact ⟨rfl, rfl⟩
      | cons a l ih =>
          intro g0 h0
          have h1 := run_state_machine_startup g0 a h0
          obtain ⟨h2, h3⟩ := ih g0 h0
          constructor
          · simp only [run_state_machines, h1, h2, List.append_nil]
          · simp only [count_transitions, h1, h3, if_true]
    obtain ⟨h2, h3⟩ := hall (a1 :: rest) _ hs'
    refine ⟨h2, ?_, h3⟩
    rw [h2, hk']

/-- C10 at a concrete input: three touch events while recording into
descriptor 7, then three `run_state_machine` calls. -/
theorem touch_coalescing_witness :
    run_state_machine (handle_touches 3 recording_globals) video_ok =
        ({ recording_globals with touch := false, state := state_t.STATE_VIEWFINDER },
         [Call.camera_stop_video 5, Call.close 7,
          Call.soundplayer_play_sound "event_recording_stop"])
      ∧ count_transitions (handle_touches 3 recording_globals)
          [video_ok, video_ok, video_ok] = 1
      ∧ run_state_machines (handle_touches 3 recording_globals) [video_ok, video_ok, video_ok]
          = run_state_machine (handle_touches 3 recording_globals) video_ok :=
  (touch_coalescing recording_globals 3 (by decide) video_ok [video_ok, video_ok]).2.2.1 rfl

/-- C10 as stated fails in two places.  In `STATE_STARTUP`: after a touch event
on the initial variables, `run_state_machine` does not consume the flag
(`touch` is still set), issues no call and makes no transition.  In
`STATE_VIEWFINDER` when the allocation fails: after a touch event the first
`run_state_machine` consumes the flag, and two calls make no transition. -/
theorem touch_not_consumed_in_startup :
    ((run_state_machine (handle_touches 1 Globals.init) video_ok).1.touch = true
      ∧ (run_state_machine (handle_touches 1 Globals.init) video_ok).1.state
          = state_t.STATE_STARTUP
      ∧ (run_state_machine (handle_touches 1 Globals.init) video_ok).2 = []
      ∧ count_transitions (handle_touches 1 Globals.init) [video_ok, video_ok] = 0)
    ∧ ((run_state_machine
          (handle_touches 1 { recording_globals with state := state_t.STATE_VIEWFINDER })
          video_roll_fails).1.touch = false
      ∧ count_transitions
          (handle_touches 1 { recording_globals with state := state_t.STATE_VIEWFINDER })
          [video_roll_fails, video_ok] = 0) := by
  refine ⟨⟨rfl, rfl, rfl, ?_⟩, rfl, ?_⟩ <;> decide

/-! ## Leaving `STATE_RECORDING` -/

/-- The state changes of `run_state_machine`: the state stays, or goes from
`STATE_VIEWFINDER` to `STATE_RECORDING` on a consumed touch with both camera
calls successful, or from `STATE_RECORDING` to `STATE_VIEWFINDER` on a
consumed touch. -/
theorem run_state_machine_edges (g : Globals) (a : video_answers) :
    (run_state_machine g a).1.state = g.state
      ∨ (g.state = state_t.STATE_VIEWFINDER ∧ g.touch = true
          ∧ a.roll_err = CAMERA_EOK ∧ a.start_err = CAMERA_EOK
          ∧ (run_state_machine g a).1.state = state_t.STATE_RECORDING
          ∧ (run_state_machine g a).1.touch = false)
      ∨ (g.state = state_t.STATE_RECORDING ∧ g.touch = true
          ∧ (run_state_machine g a).1.state = state_t.STATE_VIEWFINDER
          ∧ (run_state_machine g a).1.touch = false) := by
  unfold run_state_machine
  cases hs : g.state with
  | STATE_STARTUP => left; simp [hs]
  | STATE_VIEWFINDER =>
      by_cases ht : g.touch = true
      · by_cases hr : a.roll_err = CAMERA_EOK
        · by_cases hv : a.start_err = CAMERA_EOK
          · right; left; simp [ht, hr, hv]
          · left; simp [hs, ht, hr, hv]
        · left; simp [hs, ht, hr]
      · left; simp [hs, ht]
  | STATE_RECORDING =>
      by_cases ht : g.touch = true
      · right; right; simp [ht]
      · left; simp [hs, ht]

/-- The state changes of `handle_event`: the state stays unless the event is a
surface-created event, which sets `STATE_VIEWFINDER` from every state. -/
theorem handle_event_edges (g g1 : Globals) (r : bps_get_result) (t : List Call)
    (h : handle_event g r = some (g1, t)) :
    (is_surface_created r = false ∧ g1.state = g.state)
      ∨ (is_surface_created r = true ∧ g1.state = state_t.STATE_VIEWFINDER
          ∧ g1.touch = false) := by
  by_cases hc : is_surface_created r = true
  · right
    cases r with
    | failure => simp [is_surface_created] at hc
    | success e =>
        cases e with
        | none => simp [is_surface_created] at hc
        | some ev =>
            cases ev with
            | other_domain => simp [is_surface_created] at hc
            | navigator code => simp [is_surface_created] at hc
            | screen type window =>
                cases type <;> cases window <;> simp [is_surface_created] at hc
                simp only [handle_event, handle_screen_event, Option.some.injEq,
                  Prod.mk.injEq] at h
                obtain ⟨hg, _⟩ := h
                subst hg
                exact ⟨rfl, rfl, rfl⟩
  · left
    have hc' : is_surface_created r = false := by simpa using hc
    have hd : r ≠ bps_get_result.failure := by
      intro hr; subst hr; simp [handle_event] at h
    obtain ⟨g2, t2, h2, hs2, _, _⟩ := handle_event_keeps_state g r hd hc'
    rw [h2] at h
    simp only [Option.some.injEq, Prod.mk.injEq] at h
    obtain ⟨hg, _⟩ := h
    subst hg
    exact ⟨hc', hs2⟩

/-- C5 at the failing run (surface created, touch, surface created while
recording, exit): `main` returns 0 with these calls, among which descriptor 7
is opened and never closed and `camera_stop_video` is never called; the
second surface-created event takes the program out of `STATE_RECORDING`
without a stop or a close. -/
theorem second_surface_created_leaks_recording :
    main init_ok second_surface_inputs =
        .returned 0
          (main_setup
            ++ [Call.camera_find_capable (some camera_unit_t.CAMERA_UNIT_REAR),
                Call.fprintf_stderr "camera unit %d supports the required features\n",
                Call.camera_find_capable none,
                Call.fprintf_stderr "selecting camera unit %d\n",
                Call.camera_open camera_unit_t.CAMERA_UNIT_REAR 0 5,
                Call.camera_set_videovf_property 5 0,
                Call.camera_start_video_viewfinder 5 0]
            ++ [Call.bps_get_event,
                Call.fprintf_stderr "viewfinder window found!\n",
                Call.screen_set_window_property_iv (.vf 1) .SCREEN_PROPERTY_MIRROR 0,
                Call.screen_set_window_property_iv (.vf 1) .SCREEN_PROPERTY_ZORDER 1,
                Call.screen_set_window_property_iv (.vf 1) .SCREEN_PROPERTY_VISIBLE 1,
                Call.screen_flush_context,
                Call.bps_get_event,
                Call.fprintf_stderr "Touch event\n",
                Call.camera_roll_open_video 5 0 7 "VID_0001.mp4",
                Call.soundplayer_play_sound "event_recording_start",
                Call.camera_start_video 5 "VID_0001.mp4" 0,
                Call.bps_get_event,
                Call.fprintf_stderr "viewfinder window found!\n",
                Call.screen_set_window_property_iv (.vf 2) .SCREEN_PROPERTY_MIRROR 0,
                Call.screen_set_window_property_iv (.vf 2) .SCREEN_PROPERTY_ZORDER 1,
                Call.screen_set_window_property_iv (.vf 2) .SCREEN_PROPERTY_VISIBLE 1,
                Call.screen_flush_context,
                Call.bps_get_event,
                Call.fprintf_stderr "Exit event\n"]
            ++ [Call.camera_stop_video_viewfinder 5, Call.camera_close 5]
            ++ window_cleanup)
      ∧ (∀ t, main init_ok second_surface_inputs = .returned 0 t →
          fds_opened t = [7] ∧ fds_left_open t [] = [7]
          ∧ List.count (Call.close 7) t = 0
          ∧ List.count (Call.camera_stop_video 5) t = 0)
      ∧ handle_event recording_globals (surface_created 2) =
          some ({ recording_globals with vf_win := some 2, state := state_t.STATE_VIEWFINDER },
                [Call.bps_get_event,
                 Call.fprintf_stderr "viewfinder window found!\n",
                 Call.screen_set_window_property_iv (.vf 2) .SCREEN_PROPERTY_MIRROR 0,
                 Call.screen_set_window_property_iv (.vf 2) .SCREEN_PROPERTY_ZORDER 1,
                 Call.screen_set_window_property_iv (.vf 2) .SCREEN_PROPERTY_VISIBLE 1,
                 Call.screen_flush_context]) := by
  refine ⟨rfl, ?_, rfl⟩
  intro t ht
  have h : main init_ok second_surface_inputs = .returned 0 _ := rfl
  rw [h] at ht
  injection ht with _ ht
  subst ht
  decide

/-- C6 at the failing step: the variables `recording_globals` are reached from
the initial ones (successful `init_camera`, then the loop iterations surface
created, touch, and one more with no event), the state is `STATE_RECORDING`
with `touch` clear, and handling a surface-created event changes the state to
`STATE_VIEWFINDER` although no touch was consumed. -/
theorem surface_created_edge_from_recording :
    (init_camera Globals.init init_ok).2.1 = EOK
      ∧ (loop_bodies (init_camera Globals.init init_ok).1
            [{ video := video_ok, got := surface_created 1 },
             { video := video_ok, got := touch_event },
             { video := video_ok, got := .success none }]).map Prod.fst
          = some recording_globals
      ∧ recording_globals.state = state_t.STATE_RECORDING
      ∧ recording_globals.touch = false
      ∧ (handle_event recording_globals (surface_created 2)).map Prod.fst
          = some { recording_globals with vf_win := some 2, state := state_t.STATE_VIEWFINDER } := by
  refine ⟨rfl, rfl, rfl, rfl, rfl⟩

end RecordVideo
